import Mathlib

/-!
Verification of `send_top_episodes.py` (Zhiw/xyzrank).

The script loads a JSON snapshot of podcast episodes per data source, compares
its top-N ranking against the version of the file at the previous git commit,
and notifies a Feishu webhook.  We embed the pure core: dictionary-shaped
episodes become a structure of optional fields (Python's `.get` returns `None`
for missing keys), Python's stable `sorted(..., reverse=True)` becomes
`List.mergeSort` with the reversed comparison, Python `set`s of key pairs
become `Finset`s, and the `float`/`"%.1f"`-mediated play-count rendering is
modelled by exact IEEE-754 binary64 rounding on naturals.
-/

namespace SendTopEpisodes

/-- One episode record as the script sees it: a JSON object whose fields may be
absent (`ep.get(key)` yields Python `None` then), modelled with `Option`. -/
structure Episode where
  title : Option String
  podcastName : Option String
  playCount : Option Nat
  primaryGenreName : Option String
  link : Option String
deriving DecidableEq, Repr

/-- Embeds `ep.get("playCount", 0)`: the sort key, missing play count defaults to 0. -/
def playCountOf (ep : Episode) : Nat :=
  ep.playCount.getD 0

/-- Embeds `ep.get("primaryGenreName") not in exclude_genres`: a missing genre is
Python `None`, which is never an element of a list of strings, so an episode
without a genre always passes the filter. -/
def notInGenres (g : Option String) (exclude_genres : List String) : Bool :=
  match g with
  | none => true
  | some s => !exclude_genres.contains s

/-- The comparison handed to the stable sort: Python's
`sorted(key=lambda x: x.get("playCount", 0), reverse=True)` places `a` no
later than `b` exactly when `a`'s play count is at least `b`'s, and keeps the
original order on ties. -/
def epLe (a b : Episode) : Bool :=
  playCountOf b ≤ playCountOf a

/-- The exclusion step shared by every ranking computation in the script. -/
def filterEpisodes (episodes : List Episode) (exclude_genres : List String) : List Episode :=
  episodes.filter (fun ep => notInGenres ep.primaryGenreName exclude_genres)

/-- Embeds `filter_and_sort_episodes(episodes, exclude_genres, top_n)`: drop excluded
genres, stable-sort by play count descending, keep the first `top_n`. -/
def filter_and_sort_episodes (episodes : List Episode) (exclude_genres : List String)
    (top_n : Nat) : List Episode :=
  ((filterEpisodes episodes exclude_genres).mergeSort epLe).take top_n

/-- The identity key used for diffing: the `(title, podcastName)` pair,
each component possibly Python `None`. -/
def episodeKey (ep : Episode) : Option String × Option String :=
  (ep.title, ep.podcastName)

/-- Embeds `get_top_list_set(episodes, exclude_genres, top_n)`: the Python `set` of
`(title, podcastName)` keys of the filtered, sorted, truncated list. -/
def get_top_list_set (episodes : List Episode) (exclude_genres : List String)
    (top_n : Nat) : Finset (Option String × Option String) :=
  let filtered := filterEpisodes episodes exclude_genres
  let sorted_eps := (filtered.mergeSort epLe).take top_n
  (sorted_eps.map episodeKey).toFinset

/-- A parsed JSON document, abstracted to exactly what the script inspects:
`truthy` is the Python truthiness of the parsed value (`{}`, `null`, `0`,
`""`, `[]`, `false` are falsy), and `dataEpisodes` is the value of
`doc.get("data", {}).get("episodes", [])` read as episode records.  A falsy
document carries no episodes, so instances such as `⟨false, []⟩` model `{}`
or `null`. -/
structure Doc where
  truthy : Bool
  dataEpisodes : List Episode
deriving DecidableEq, Repr

/-- Embeds `load_episodes(file_path)` on a file that parsed to `doc`. -/
def load_episodes (doc : Doc) : List Episode :=
  doc.dataEpisodes

/-- Embeds `get_new_episodes(file_path, exclude_genres, top_n)`.

`currentFile` is the outcome of reading and JSON-parsing the current file
(`none` models `FileNotFoundError` / `JSONDecodeError`, both of which make the
function return Python `None`).  `lastCommit` is the outcome of
`get_last_commit_content` (`none` models a failed `git show` or unparsable
previous content).  The result is `none` for the Python `None` sentinel,
`some l` for a returned list `l`. -/
def get_new_episodes (currentFile : Option Doc) (lastCommit : Option Doc)
    (exclude_genres : List String) (top_n : Nat) : Option (List Episode) :=
  match currentFile with
  | none => none
  | some current =>
    let current_episodes := current.dataEpisodes
    match lastCommit with
    | none => none
    | some last_data =>
      if !last_data.truthy then none
      else
        let last_episodes := last_data.dataEpisodes
        let current_set := get_top_list_set current_episodes exclude_genres top_n
        let last_set := get_top_list_set last_episodes exclude_genres top_n
        let new_keys := current_set \ last_set
        if new_keys = ∅ then some []
        else
          let filtered := filterEpisodes current_episodes exclude_genres
          let sorted_eps := (filtered.mergeSort epLe).take top_n
          some (sorted_eps.filter (fun ep => decide (episodeKey ep ∈ new_keys)))

/-- Round `a / b` (with `b > 0`) to the nearest integer, ties to even: the
rounding IEEE-754 applies both when dividing two exact values into a binary64
and when CPython renders a binary64 with `"%.1f"`. -/
def roundHalfEvenDiv (a b : Nat) : Nat :=
  let q := a / b
  let r := a % b
  if 2 * r < b then q
  else if b < 2 * r then q + 1
  else if q % 2 = 0 then q else q + 1

/-- Structural-recursion floor of `log2` (fuel-driven so the kernel can
evaluate it); `log2floor n` is the exponent of the binade of `n ≥ 1`. -/
def log2Aux : Nat → Nat → Nat
  | 0, _ => 0
  | fuel + 1, n => if 2 ≤ n then log2Aux fuel (n / 2) + 1 else 0

def log2floor (n : Nat) : Nat :=
  log2Aux n n

/-- Embeds `f"{play_count / 10000:.1f}万"` for `p ≥ 10000`, modelled exactly:
`p / 10000` is first rounded (to nearest, ties to even) to a binary64 value
`m * 2 ^ e / 2 ^ 52` with `2 ^ e ≤ p / 10000 < 2 ^ (e + 1)`, and that value is
then rendered to one decimal digit with the same rounding, which is what
CPython's correctly-rounded float formatting does.  (Binary64 overflow, which
needs `p ≥ 10000 * 2 ^ 1024`, is not modelled.) -/
def formatWan (p : Nat) : String :=
  let e := log2floor (p / 10000)
  let m := roundHalfEvenDiv (p * 2 ^ 52) (10000 * 2 ^ e)
  let t := roundHalfEvenDiv (m * 10 * 2 ^ e) (2 ^ 52)
  toString (t / 10) ++ "." ++ toString (t % 10) ++ "万"

/-- The play-count display string: raw integer below 10000, `formatWan`
(value in units of 万, one decimal) at or above 10000. -/
def formatPlayCount (p : Nat) : String :=
  if p ≥ 10000 then formatWan p else toString p

/-- The display record built by `format_episode_for_feishu`. -/
structure FormattedEpisode where
  rank : Nat
  title : String
  podcast : String
  playCount : String
  genre : String
  link : String
deriving DecidableEq, Repr

/-- Embeds `format_episode_for_feishu(episode, rank)`: every missing field renders as
the empty string (`ep.get(key, "")`), the play count via `formatPlayCount`. -/
def format_episode_for_feishu (ep : Episode) (rank : Nat) : FormattedEpisode :=
  { rank := rank
    title := ep.title.getD ""
    podcast := ep.podcastName.getD ""
    playCount := formatPlayCount (playCountOf ep)
    genre := ep.primaryGenreName.getD ""
    link := ep.link.getD "" }

/-- Embeds `process_and_send(webhook_url, file_path, title, top_n)`, reduced to its
observable decision: `none` models "skipped, nothing sent" (the Python
function returns `None`), `some (eps, t)` models "a Feishu card with episode
list `eps` under header title `t` is sent".  `doc` is the parsed current file
(shared by `get_new_episodes` and `load_episodes`); `lastCommit` as in
`get_new_episodes`.  The genre exclusion list is hard-coded to `["喜剧"]` as
in the source. -/
def process_and_send (doc : Doc) (lastCommit : Option Doc) (title : String)
    (top_n : Nat) : Option (List Episode × String) :=
  let exclude_genres := ["喜剧"]
  match get_new_episodes (some doc) lastCommit exclude_genres top_n with
  | none =>
    let episodes := filter_and_sort_episodes (load_episodes doc) exclude_genres top_n
    some (episodes, title ++ "（新增 " ++ toString episodes.length ++ " 个）")
  | some new_episodes =>
    if new_episodes.length = 0 then none
    else some (new_episodes, title ++ "（新增 " ++ toString new_episodes.length ++ " 个）")

/-- The per-source outcome as `main`'s loop observes it: `process_and_send`
returned `True` (webhook accepted), `False` (webhook rejected), `None`
(skipped), or raised an exception caught by the loop. -/
inductive ProcessResult where
  | ok
  | apiFail
  | skipped
  | err
deriving DecidableEq, Repr

/-- The counting loop of `main`: `success_count` bumps only on `result is
True`, `skip_count` only on `result is None`; failures touch neither. -/
def mainLoop : List ProcessResult → Nat → Nat → Nat × Nat
  | [], success_count, skip_count => (success_count, skip_count)
  | r :: rs, success_count, skip_count =>
    match r with
    | .ok => mainLoop rs (success_count + 1) skip_count
    | .skipped => mainLoop rs success_count (skip_count + 1)
    | _ => mainLoop rs success_count skip_count

/-- The final line `main` prints, built from the two counters of the loop. -/
def mainSummary (results : List ProcessResult) : String :=
  let counts := mainLoop results 0 0
  "完成! 发送 " ++ toString counts.1 ++ " 条，跳过 " ++ toString counts.2 ++ " 条（无新增）"

/-- Modelled from the spec: "rounding to one decimal with standard rounding"
read as round-half-up on the exact rational `p / 10000`, for comparison with
the source's float-mediated rendering. -/
def formatWanHalfUpSpec (p : Nat) : String :=
  let t := (10 * p + 5000) / 10000
  toString (t / 10) ++ "." ++ toString (t % 10) ++ "万"

/-- Fixture: an episode with no genre field (Python `None` genre). -/
def epNoGenre : Episode :=
  ⟨some "t", some "p", some 3, none, none⟩

/-- Fixture: two distinct episodes tied at play count 5. -/
def epTieA : Episode :=
  ⟨some "a", some "pa", some 5, none, none⟩

def epTieB : Episode :=
  ⟨some "b", some "pb", some 5, none, none⟩

/-- Fixture: a popular episode with a non-excluded genre. -/
def epHot : Episode :=
  ⟨some "hot", some "pod", some 100, some "新闻", some "u"⟩

end SendTopEpisodes

namespace SendTopEpisodes

theorem epLe_trans (a b c : Episode) (hab : epLe a b = true) (hbc : epLe b c = true) :
    epLe a c = true := by
  simp only [epLe, decide_eq_true_eq] at *
  omega

theorem epLe_total (a b : Episode) : (epLe a b || epLe b a) = true := by
  simp only [epLe, Bool.or_eq_true, decide_eq_true_eq]
  omega

theorem mainLoop_eq (rs : List ProcessResult) (s k : Nat) :
    mainLoop rs s k =
      (s + rs.countP (fun r => r == ProcessResult.ok),
       k + rs.countP (fun r => r == ProcessResult.skipped)) := by
  induction rs generalizing s k with
  | nil => simp [mainLoop]
  | cons r rs ih =>
    cases r <;> simp [mainLoop, ih, List.countP_cons] <;> omega

/-- Claim C4: if the previous snapshot is unavailable (no prior revision
retrievable, so `get_last_commit_content` yielded `None`), `get_new_episodes`
returns the no-baseline sentinel `None` and never the empty list; the
empty-diff result `some []` is a different value of the result type. -/
theorem get_new_episodes_none_baseline_sentinel (currentFile : Option Doc)
    (exclude_genres : List String) (top_n : Nat) :
    get_new_episodes currentFile none exclude_genres top_n = none ∧
    get_new_episodes currentFile none exclude_genres top_n ≠ some [] := by
  cases currentFile <;> simp [get_new_episodes]

/-- Counterexample to claim C7 as stated: a current file and a retrievable,
identical previous revision, both parsing to the falsy document `{}` (no
`data` key, hence no episodes), make `get_new_episodes` return the
no-baseline sentinel `None` instead of the empty list: the falsiness guard on
the previous content fires even though the previous snapshot exists. -/
theorem get_new_episodes_falsy_identical_counterexample :
    get_new_episodes (some ⟨false, []⟩) (some ⟨false, []⟩) ["喜剧"] 20 = none ∧
    (none : Option (List Episode)) ≠ some [] := by
  constructor
  · rfl
  · simp

/-- Claim C7 (amended): for every current snapshot whose retrievable previous
snapshot is identical to it and truthy (a non-falsy JSON document, e.g. a
nonempty object), the diff yields the empty new-items list, not the
no-baseline sentinel. -/
theorem get_new_episodes_identical_truthy_empty (current last_data : Doc)
    (ht : last_data.truthy = true) (heq : current = last_data)
    (exclude_genres : List String) (top_n : Nat) :
    get_new_episodes (some current) (some last_data) exclude_genres top_n = some [] := by
  subst heq
  simp [get_new_episodes, ht]

theorem get_new_episodes_identical_truthy_empty_witness :
    (Doc.mk true [⟨some "a", some "p", some 7, none, none⟩]).truthy = true ∧
    (Doc.mk true [⟨some "a", some "p", some 7, none, none⟩]) =
      (Doc.mk true [⟨some "a", some "p", some 7, none, none⟩]) ∧
    get_new_episodes (some (Doc.mk true [⟨some "a", some "p", some 7, none, none⟩]))
      (some (Doc.mk true [⟨some "a", some "p", some 7, none, none⟩])) ["喜剧"] 20 = some [] :=
  ⟨rfl, rfl,
    get_new_episodes_identical_truthy_empty _ _ rfl rfl ["喜剧"] 20⟩

/-- Counterexample to claim C2 as stated: the final summary line of `main`
does not report failures — a run whose single source failed prints the very
same summary as a run with no sources at all, so the failed count is neither
tracked in the summary nor reported. -/
theorem mainSummary_ignores_failures :
    mainSummary [ProcessResult.err] = mainSummary [] ∧
    mainSummary [ProcessResult.err] = "完成! 发送 0 条，跳过 0 条（无新增）" := by
  constructor <;> rfl

/-- Claim C2 (amended): the orchestrator `main` tracks counts of sent and skipped sources
(`success_count` and `skip_count`) and reports exactly those two in the final
summary; failed sources are logged when caught but neither counted nor
reported. -/
theorem mainSummary_reports_sent_skipped (results : List ProcessResult) :
    mainLoop results 0 0 =
      (results.countP (fun r => r == ProcessResult.ok),
       results.countP (fun r => r == ProcessResult.skipped)) ∧
    mainSummary results =
      "完成! 发送 " ++ toString (results.countP (fun r => r == ProcessResult.ok)) ++
        " 条，跳过 " ++ toString (results.countP (fun r => r == ProcessResult.skipped)) ++
        " 条（无新增）" := by
  have h := mainLoop_eq results 0 0
  simp only [Nat.zero_add] at h
  exact ⟨h, by simp [mainSummary, h]⟩

/-- Counterexample to claim C6 as stated: at play count 12500 the exact
quotient is 1.25, which "standard rounding" (round half up) to one decimal
renders as "1.3万", but the code's float-mediated formatting (binary64 is
exact here, and CPython's `"%.1f"` rounds ties to even) renders "1.2万". -/
theorem formatPlayCount_half_up_counterexample :
    formatPlayCount 12500 = "1.2万" ∧
    formatWanHalfUpSpec 12500 = "1.3万" ∧
    formatPlayCount 12500 ≠ formatWanHalfUpSpec 12500 := by
  refine ⟨rfl, rfl, ?_⟩
  decide

/-- Claim C6 (amended): below 10000 the display string is the raw integer;
at or above 10000 it is the quotient by 10000 rendered to one decimal plus
"万", with rounding as performed on the binary64 quotient with ties to even
(not half-up): 0 → "0", 9999 → "9999", 10000 → "1.0万", 15000 → "1.5万",
15500 → "1.6万", but 12500 → "1.2万". -/
theorem formatPlayCount_values :
    (∀ p : Nat, p < 10000 → formatPlayCount p = toString p) ∧
    formatPlayCount 0 = "0" ∧
    formatPlayCount 9999 = "9999" ∧
    formatPlayCount 10000 = "1.0万" ∧
    formatPlayCount 15000 = "1.5万" ∧
    formatPlayCount 15500 = "1.6万" ∧
    formatPlayCount 12500 = "1.2万" := by
  refine ⟨?_, rfl, rfl, rfl, rfl, rfl, rfl⟩
  intro p hp
  simp [formatPlayCount, Nat.not_le.mpr hp]

theorem formatPlayCount_values_witness :
    (123 : Nat) < 10000 ∧ formatPlayCount 123 = toString 123 :=
  ⟨by decide, formatPlayCount_values.1 123 (by decide)⟩

end SendTopEpisodes

namespace SendTopEpisodes

open List

/-- Claim C5: the ranking filter's output is sorted in non-increasing order of
play count (a missing play count read as 0), and, the sort being stable, any
pair tied on play count that occurs in some order in the filtered input still
occurs in that order in the sorted sequence the output truncates. -/
theorem filter_and_sort_sorted_stable (episodes : List Episode)
    (exclude_genres : List String) (top_n : Nat) :
    (filter_and_sort_episodes episodes exclude_genres top_n).Pairwise
      (fun a b => playCountOf b ≤ playCountOf a) ∧
    ∀ a b : Episode, playCountOf a = playCountOf b →
      [a, b] <+ filterEpisodes episodes exclude_genres →
      [a, b] <+ (filterEpisodes episodes exclude_genres).mergeSort epLe := by
  constructor
  · have hs : ((filterEpisodes episodes exclude_genres).mergeSort epLe).Pairwise
        (fun a b => epLe a b = true) :=
      List.sorted_mergeSort epLe_trans epLe_total _
    have hp := List.Pairwise.sublist (List.take_sublist top_n _) hs
    exact hp.imp (fun h => by simpa [epLe] using h)
  · intro a b hpc hsub
    exact List.pair_sublist_mergeSort epLe_trans epLe_total (by simp [epLe, hpc]) hsub

theorem filter_and_sort_sorted_stable_witness :
    playCountOf epTieA = playCountOf epTieB ∧
    [epTieA, epTieB] <+ filterEpisodes [epTieA, epTieB] ["喜剧"] ∧
    [epTieA, epTieB] <+ (filterEpisodes [epTieA, epTieB] ["喜剧"]).mergeSort epLe :=
  ⟨rfl, List.Sublist.refl _,
    (filter_and_sort_sorted_stable [epTieA, epTieB] ["喜剧"] 2).2 epTieA epTieB rfl
      (List.Sublist.refl _)⟩

/-- Claim C9: the ranking filter returns exactly the first `top_n` items of
the sorted, filtered sequence, all of them when fewer than `top_n` remain
after exclusion, and its output length is at most `top_n` and at most the
length of the input after exclusion. -/
theorem filter_and_sort_top_n (episodes : List Episode)
    (exclude_genres : List String) (top_n : Nat) :
    filter_and_sort_episodes episodes exclude_genres top_n =
      ((filterEpisodes episodes exclude_genres).mergeSort epLe).take top_n ∧
    ((filterEpisodes episodes exclude_genres).length ≤ top_n →
      filter_and_sort_episodes episodes exclude_genres top_n =
        (filterEpisodes episodes exclude_genres).mergeSort epLe) ∧
    (filter_and_sort_episodes episodes exclude_genres top_n).length ≤ top_n ∧
    (filter_and_sort_episodes episodes exclude_genres top_n).length ≤
      (filterEpisodes episodes exclude_genres).length := by
  have hlen : (filter_and_sort_episodes episodes exclude_genres top_n).length =
      min top_n (filterEpisodes episodes exclude_genres).length := by
    simp [filter_and_sort_episodes]
  refine ⟨rfl, ?_, ?_, ?_⟩
  · intro h
    unfold filter_and_sort_episodes
    rw [List.take_of_length_le]
    rwa [List.length_mergeSort]
  · omega
  · omega

theorem filter_and_sort_top_n_witness :
    (filterEpisodes [epHot] ["喜剧"]).length ≤ 20 ∧
    filter_and_sort_episodes [epHot] ["喜剧"] 20 =
      (filterEpisodes [epHot] ["喜剧"]).mergeSort epLe :=
  ⟨by simp [filterEpisodes, notInGenres, epHot],
    (filter_and_sort_top_n [epHot] ["喜剧"] 20).2.1
      (by simp [filterEpisodes, notInGenres, epHot])⟩

/-- Claim C8: no episode whose genre lies in the excluded list ever appears in
the ranking filter's output, whatever its play count, and an episode with a
missing genre is never removed by the exclusion step. -/
theorem filter_excludes_genres (episodes : List Episode)
    (exclude_genres : List String) (top_n : Nat) :
    (∀ ep ∈ filter_and_sort_episodes episodes exclude_genres top_n,
      ∀ g ∈ exclude_genres, ep.primaryGenreName ≠ some g) ∧
    (∀ ep ∈ episodes, ep.primaryGenreName = none →
      ep ∈ filterEpisodes episodes exclude_genres) := by
  constructor
  · intro ep hep g hg hgen
    have h1 : ep ∈ (filterEpisodes episodes exclude_genres).mergeSort epLe :=
      (List.take_sublist top_n _).subset hep
    rw [List.mem_mergeSort, filterEpisodes, List.mem_filter] at h1
    have h2 := h1.2
    rw [hgen] at h2
    simp [notInGenres] at h2
    exact h2 hg
  · intro ep hep hnone
    rw [filterEpisodes, List.mem_filter]
    exact ⟨hep, by simp [notInGenres, hnone]⟩

theorem filter_excludes_genres_witness :
    epNoGenre ∈ filter_and_sort_episodes [epNoGenre] ["喜剧"] 1 ∧
    "喜剧" ∈ ["喜剧"] ∧
    epNoGenre.primaryGenreName ≠ some "喜剧" ∧
    epNoGenre ∈ ([epNoGenre] : List Episode) ∧
    epNoGenre.primaryGenreName = none ∧
    epNoGenre ∈ filterEpisodes [epNoGenre] ["喜剧"] := by
  have hmem : epNoGenre ∈ filter_and_sort_episodes [epNoGenre] ["喜剧"] 1 := by
    simp [filter_and_sort_episodes, filterEpisodes, notInGenres, epNoGenre]
  have hg : "喜剧" ∈ ["喜剧"] := by simp
  refine ⟨hmem, hg, (filter_excludes_genres [epNoGenre] ["喜剧"] 1).1 epNoGenre hmem "喜剧" hg,
    by simp, rfl,
    (filter_excludes_genres [epNoGenre] ["喜剧"] 1).2 epNoGenre (by simp) rfl⟩

end SendTopEpisodes

namespace SendTopEpisodes

/-- Counterexample to claim C3 as stated: a baseline that is present
(retrieved and parsed, here the falsy document `{}`) with a current snapshot
holding one rankable episode makes the diff return the `None` sentinel, not
the claimed filtered subsequence of the current top-N, which here would be
`some [epHot]`: the truthiness guard on the previous content fires although
the baseline exists. -/
theorem get_new_episodes_falsy_baseline_counterexample :
    get_new_episodes (some (Doc.mk true [epHot])) (some (Doc.mk false [])) ["喜剧"] 20 = none ∧
    some ((filter_and_sort_episodes [epHot] ["喜剧"] 20).filter
      (fun ep => decide (episodeKey ep ∈
        get_top_list_set [epHot] ["喜剧"] 20 \ get_top_list_set [] ["喜剧"] 20))) =
      some [epHot] ∧
    (none : Option (List Episode)) ≠ some [epHot] := by
  refine ⟨rfl, ?_, by simp⟩
  simp [filter_and_sort_episodes, get_top_list_set, filterEpisodes, notInGenres, epHot,
    episodeKey]

/-- Claim C3 (amended): with the baseline present and truthy (previous
content retrieved and parsing to a non-falsy JSON value), the diff returns
exactly the subsequence of the current top-N — as produced by the ranking
filter — whose (title, podcastName) key lies in the set difference of the
current top-N key set minus the previous top-N key set, in the current
top-N's rank order; a retrievable falsy baseline yields the sentinel
instead. -/
theorem get_new_episodes_eq_top_filter (current last_data : Doc)
    (ht : last_data.truthy = true) (exclude_genres : List String) (top_n : Nat) :
    get_new_episodes (some current) (some last_data) exclude_genres top_n =
      some ((filter_and_sort_episodes current.dataEpisodes exclude_genres top_n).filter
        (fun ep => decide (episodeKey ep ∈
          get_top_list_set current.dataEpisodes exclude_genres top_n \
            get_top_list_set last_data.dataEpisodes exclude_genres top_n))) := by
  obtain ⟨tr, leps⟩ := last_data
  simp only [Doc.truthy] at ht
  subst ht
  show (if (get_top_list_set current.dataEpisodes exclude_genres top_n \
        get_top_list_set leps exclude_genres top_n) = ∅ then some []
      else some ((((filterEpisodes current.dataEpisodes exclude_genres).mergeSort epLe).take
        top_n).filter (fun ep => decide (episodeKey ep ∈
          get_top_list_set current.dataEpisodes exclude_genres top_n \
            get_top_list_set leps exclude_genres top_n)))) = _
  split
  · rename_i h
    rw [h]
    simp
  · rfl

theorem get_new_episodes_eq_top_filter_witness :
    (Doc.mk true []).truthy = true ∧
    get_new_episodes (some (Doc.mk true [epHot])) (some (Doc.mk true [])) ["喜剧"] 20 =
      some ((filter_and_sort_episodes [epHot] ["喜剧"] 20).filter
        (fun ep => decide (episodeKey ep ∈
          get_top_list_set [epHot] ["喜剧"] 20 \ get_top_list_set [] ["喜剧"] 20))) :=
  ⟨rfl, get_new_episodes_eq_top_filter (Doc.mk true [epHot]) (Doc.mk true []) rfl ["喜剧"] 20⟩

/-- Counterexample to claim C1 as stated: for a source with no baseline
(`get_last_commit_content` unavailable), the orchestrator does send the full
current top-N list, but under a title annotated with a count —
"标题（新增 1 个）" — not under the plain source title "标题": the annotation
at the message-building step is unconditional. -/
theorem process_and_send_plain_title_counterexample :
    process_and_send (Doc.mk true [epHot]) none "标题" 20 =
      some ([epHot], "标题（新增 1 个）") ∧
    "标题（新增 1 个）" ≠ "标题" := by
  have hfs : filter_and_sort_episodes [epHot] ["喜剧"] 20 = [epHot] := by
    simp [filter_and_sort_episodes, filterEpisodes, notInGenres, epHot]
  constructor
  · show some (filter_and_sort_episodes [epHot] ["喜剧"] 20,
        "标题" ++ "（新增 " ++
          toString (filter_and_sort_episodes [epHot] ["喜剧"] 20).length ++ " 个）") =
      some ([epHot], "标题（新增 1 个）")
    rw [hfs]
    rfl
  · decide

/-- Claim C1 (amended): when no baseline is available the orchestrator sends
the full current top-N list, and when a baseline exists and new items are
found it sends just the new items; in both cases the title carries the
count annotation "（新增 k 个）" with k the number of items sent — the plain
source title is never used on its own. -/
theorem process_and_send_title_always_counts (doc : Doc) (lastCommit : Option Doc)
    (title : String) (top_n : Nat) :
    (get_new_episodes (some doc) lastCommit ["喜剧"] top_n = none →
      process_and_send doc lastCommit title top_n =
        some (filter_and_sort_episodes doc.dataEpisodes ["喜剧"] top_n,
          title ++ "（新增 " ++
            toString (filter_and_sort_episodes doc.dataEpisodes ["喜剧"] top_n).length ++
            " 个）")) ∧
    (∀ l, get_new_episodes (some doc) lastCommit ["喜剧"] top_n = some l → l ≠ [] →
      process_and_send doc lastCommit title top_n =
        some (l, title ++ "（新增 " ++ toString l.length ++ " 个）")) := by
  constructor
  · intro h
    simp only [process_and_send]
    rw [h]
    rfl
  · intro l h hne
    simp only [process_and_send]
    rw [h]
    simp only []
    rw [if_neg (fun hz => hne (List.length_eq_zero.mp hz))]

theorem process_and_send_title_always_counts_witness :
    get_new_episodes (some (Doc.mk true [])) none ["喜剧"] 20 = none ∧
    process_and_send (Doc.mk true []) none "T" 20 =
      some (filter_and_sort_episodes [] ["喜剧"] 20,
        "T" ++ "（新增 " ++ toString (filter_and_sort_episodes [] ["喜剧"] 20).length ++
          " 个）") ∧
    get_new_episodes (some (Doc.mk true [epHot])) (some (Doc.mk true [])) ["喜剧"] 20 =
      some [epHot] ∧
    ([epHot] : List Episode) ≠ [] ∧
    process_and_send (Doc.mk true [epHot]) (some (Doc.mk true [])) "T" 20 =
      some ([epHot], "T" ++ "（新增 " ++ toString ([epHot] : List Episode).length ++ " 个）") := by
  have hnew : get_new_episodes (some (Doc.mk true [epHot])) (some (Doc.mk true [])) ["喜剧"] 20 =
      some [epHot] := by
    simp [get_new_episodes, get_top_list_set, filterEpisodes, notInGenres, epHot, episodeKey]
  have hne : ([epHot] : List Episode) ≠ [] := by simp
  exact ⟨rfl,
    (process_and_send_title_always_counts (Doc.mk true []) none "T" 20).1 rfl,
    hnew, hne,
    (process_and_send_title_always_counts (Doc.mk true [epHot]) (some (Doc.mk true [])) "T"
      20).2 [epHot] hnew hne⟩

/-- Claim C10: the diff returns the `None` sentinel whenever the previous
revision is not retrievable, whenever the previous revision's content parses
to a falsy JSON value, and whenever the current file is missing or not valid
JSON — all indistinguishable at its interface — and a `None` result makes the
orchestrator take the send-everything branch (format the full current top-N
and send it). -/
theorem get_new_episodes_sentinel_conflation :
    (∀ (currentFile : Option Doc) (exclude_genres : List String) (top_n : Nat),
      get_new_episodes currentFile none exclude_genres top_n = none) ∧
    (∀ (cd ld : Doc) (exclude_genres : List String) (top_n : Nat),
      ld.truthy = false →
      get_new_episodes (some cd) (some ld) exclude_genres top_n = none) ∧
    (∀ (lastCommit : Option Doc) (exclude_genres : List String) (top_n : Nat),
      get_new_episodes none lastCommit exclude_genres top_n = none) ∧
    (∀ (doc : Doc) (lastCommit : Option Doc) (title : String) (top_n : Nat),
      get_new_episodes (some doc) lastCommit ["喜剧"] top_n = none →
      process_and_send doc lastCommit title top_n =
        some (filter_and_sort_episodes doc.dataEpisodes ["喜剧"] top_n,
          title ++ "（新增 " ++
            toString (filter_and_sort_episodes doc.dataEpisodes ["喜剧"] top_n).length ++
            " 个）")) := by
  refine ⟨?_, ?_, ?_, ?_⟩
  · intro cf ex n
    cases cf <;> rfl
  · intro cd ld ex n hf
    obtain ⟨tr, leps⟩ := ld
    simp only [Doc.truthy] at hf
    subst hf
    rfl
  · intro lc ex n
    rfl
  · intro doc lc title n h
    simp only [process_and_send]
    rw [h]
    rfl

theorem get_new_episodes_sentinel_conflation_witness :
    (Doc.mk false []).truthy = false ∧
    get_new_episodes (some (Doc.mk true [epHot])) (some (Doc.mk false [])) ["喜剧"] 3 = none ∧
    get_new_episodes (some (Doc.mk true [epHot])) none ["喜剧"] 3 = none ∧
    process_and_send (Doc.mk true [epHot]) (some (Doc.mk false [])) "T" 3 =
      some (filter_and_sort_episodes [epHot] ["喜剧"] 3,
        "T" ++ "（新增 " ++ toString (filter_and_sort_episodes [epHot] ["喜剧"] 3).length ++
          " 个）") :=
  ⟨rfl,
    get_new_episodes_sentinel_conflation.2.1 (Doc.mk true [epHot]) (Doc.mk false []) ["喜剧"] 3
      rfl,
    get_new_episodes_sentinel_conflation.1 (some (Doc.mk true [epHot])) ["喜剧"] 3,
    get_new_episodes_sentinel_conflation.2.2.2 (Doc.mk true [epHot]) (some (Doc.mk false []))
      "T" 3
      (get_new_episodes_sentinel_conflation.2.1 (Doc.mk true [epHot]) (Doc.mk false []) ["喜剧"]
        3 rfl)⟩

end SendTopEpisodes
